import Mathlib

/-!
Verification of the cache-configuration surface of `dspy/clients/__init__.py`
and of the pydantic-v1 compatibility `TypeAdapter` in
`dspy/utils/pydantic_compat.py`, as a shallow embedding in Lean 4.

The embedding models Python module-global state (`litellm.cache`,
`dspy.cache`, emitted log warnings) explicitly, Python `bool | None`
parameters as `Option Bool` with Python truthiness, and the raising of a
`ValueError` as an error result paired with the (unchanged) global state.
-/

namespace DspyCache

/-- Python truthiness of a `bool | None` value: `None` and `False` are falsy,
`True` is the only truthy value. -/
def truthy : Option Bool → Bool
  | none => false
  | some b => b

/-- Modelled from the spec: the class `dspy.clients.cache.Cache` is not part
of the sources under verification (only its caller is). Per the spec,
constructing a Cache produces fresh tier instances holding no entries and
records the supplied options. The five fields mirror the five positional
arguments `configure_cache` passes to the constructor; `entries` models the
stored key-value pairs of the fresh instance. -/
structure Cache where
  enable_disk_cache : Option Bool
  enable_memory_cache : Option Bool
  disk_cache_dir : Option String
  disk_size_limit_bytes : Option Int
  memory_max_entries : Option Int
  entries : List (String × String)
  deriving Repr, DecidableEq

/-- Modelled from the spec: `Cache(...)` constructs a brand-new instance from
the supplied options; no entries are migrated from any previous instance, so
the fresh instance holds no entries. -/
def Cache.construct (edc emc : Option Bool) (dir : Option String)
    (limit maxEntries : Option Int) : Cache :=
  { enable_disk_cache := edc
    enable_memory_cache := emc
    disk_cache_dir := dir
    disk_size_limit_bytes := limit
    memory_max_entries := maxEntries
    entries := [] }

/-- The observable state of a successfully constructed
`litellm.caching.caching.Cache` as `configure_cache` builds it:
`LitellmCache(disk_cache_dir=DISK_CACHE_DIR, type="disk")`, after which
`configure_cache` forces `size_limit` to `DISK_CACHE_LIMIT` (it resets the
limit whenever it differs, so the end state always carries
`DISK_CACHE_LIMIT`). -/
structure LitellmCache where
  disk_cache_dir : String
  type : String
  size_limit : Int
  deriving Repr, DecidableEq

/-- The module-level constants of `dspy/clients/__init__.py` that
`configure_cache` reads: `DISK_CACHE_DIR` and `DISK_CACHE_LIMIT`, both
evaluated once at module import. -/
structure ModuleState where
  DISK_CACHE_DIR : String
  DISK_CACHE_LIMIT : Int
  deriving Repr, DecidableEq

/-- The Python module-global state mutated by `configure_cache`:
`litellm.cache`, the process-wide `dspy.cache`, and the sequence of warnings
emitted through `logger.warning`. -/
structure GlobalState where
  litellmCache : Option LitellmCache
  dspyCache : Cache
  warnings : List String
  deriving Repr, DecidableEq

/-- The single error `configure_cache` can raise itself: the `ValueError`
(the spec's `ConfigurationError`) for the disk/LiteLLM cache conflict. -/
inductive ConfigError where
  | valueError
  deriving Repr, DecidableEq

/-- Shallow embedding of `configure_cache` from `dspy/clients/__init__.py`.
The result pairs the raised error (if any) with the resulting global state;
when the `ValueError` is raised the guard has run before every assignment,
so the state is returned unchanged. `litellmInitFails` is an environment
oracle: whether constructing the LiteLLM disk cache raises (e.g. the cache
directory is unwritable); in that case the code logs a warning and sets
`litellm.cache` to `None`. The LiteLLM branch reads the module constants
`DISK_CACHE_DIR` and `DISK_CACHE_LIMIT`, not the call's parameters. -/
def configure_cache (ms : ModuleState) (st : GlobalState)
    (enable_disk_cache : Option Bool) (enable_memory_cache : Option Bool)
    (disk_cache_dir : Option String) (disk_size_limit_bytes : Option Int)
    (memory_max_entries : Option Int) (enable_litellm_cache : Bool)
    (litellmInitFails : Bool) : Option ConfigError × GlobalState :=
  if truthy enable_disk_cache && enable_litellm_cache then
    (some ConfigError.valueError, st)
  else
    let st1 : GlobalState :=
      if enable_litellm_cache then
        if litellmInitFails then
          { st with litellmCache := none
                    warnings := st.warnings ++ ["Failed to initialize LiteLLM cache"] }
        else
          { st with litellmCache := some (LitellmCache.mk ms.DISK_CACHE_DIR "disk" ms.DISK_CACHE_LIMIT) }
      else
        { st with litellmCache := none }
    let newCache := Cache.construct enable_disk_cache enable_memory_cache
      disk_cache_dir disk_size_limit_bytes memory_max_entries
    (none, { st1 with dspyCache := newCache })

/-- The fallback directory `os.path.join(Path.home(), ".dspy_cache")`,
modelled as path concatenation under the user home directory. -/
def defaultCacheDir (home : String) : String := home ++ "/.dspy_cache"

/-- Shallow embedding of the module-level binding
`DISK_CACHE_DIR = os.environ.get("DSPY_CACHEDIR") or os.path.join(Path.home(), ".dspy_cache")`.
Python `or` falls back when the left operand is falsy, i.e. when the
variable is unset or set to the empty string. -/
def DISK_CACHE_DIR_of (home : String) (env : String → Option String) : String :=
  match env "DSPY_CACHEDIR" with
  | some s => if s = "" then defaultCacheDir home else s
  | none => defaultCacheDir home

/-- Shallow embedding of
`DISK_CACHE_LIMIT = int(os.environ.get("DSPY_CACHE_LIMIT", 3e10))`.
When the variable is unset, `int(3e10)` is `30000000000`; when it is set,
`int(s)` parses the decimal string and raises (import fails, modelled as
`none`) on a malformed value. -/
def DISK_CACHE_LIMIT_of (env : String → Option String) : Option Int :=
  match env "DSPY_CACHE_LIMIT" with
  | some s => s.toInt?
  | none => some 30000000000

/-- The state created by importing `dspy/clients/__init__.py`: the module
constants, plus the module-global cache state after the import-time
statements `litellm.cache = None` and the construction of `DSPY_CACHE`. -/
structure ImportedModule where
  consts : ModuleState
  state : GlobalState
  deriving Repr, DecidableEq

/-- Shallow embedding of the import-time effects of
`dspy/clients/__init__.py`: evaluate `DISK_CACHE_DIR` and
`DISK_CACHE_LIMIT` from the environment (once, at import), set
`litellm.cache` to `None`, and construct the single process-wide default
`DSPY_CACHE` with both tiers enabled, the module directory and limit, and a
1,000,000-entry memory bound. Import fails (`none`) only if the limit
variable does not parse as an integer. -/
def moduleImport (home : String) (env : String → Option String) : Option ImportedModule :=
  match DISK_CACHE_LIMIT_of env with
  | none => none
  | some lim =>
    let dir := DISK_CACHE_DIR_of home env
    some { consts := ModuleState.mk dir lim
           state := { litellmCache := none
                      dspyCache := Cache.construct (some true) (some true) (some dir) (some lim) (some 1000000)
                      warnings := [] } }

/-- The default values of `configure_cache`'s six parameters. Python
evaluates default expressions once, at function definition time (module
import), so they are functions of the module constants only; the current
environment `envNow` is a parameter of the model solely to record that the
defaults never consult it. -/
structure ConfigureCacheArgs where
  enable_disk_cache : Option Bool
  enable_memory_cache : Option Bool
  disk_cache_dir : Option String
  disk_size_limit_bytes : Option Int
  memory_max_entries : Option Int
  enable_litellm_cache : Bool
  deriving Repr, DecidableEq

/-- Shallow embedding of the default argument list of `configure_cache`:
`enable_disk_cache=True`, `enable_memory_cache=True`,
`disk_cache_dir=DISK_CACHE_DIR`, `disk_size_limit_bytes=DISK_CACHE_LIMIT`,
`memory_max_entries=1000000`, `enable_litellm_cache=False`. `envNow` is
ignored: the defaults come from the import-time module constants. -/
def configureCacheDefaults (ms : ModuleState) (_envNow : String → Option String) :
    ConfigureCacheArgs :=
  { enable_disk_cache := some true
    enable_memory_cache := some true
    disk_cache_dir := some ms.DISK_CACHE_DIR
    disk_size_limit_bytes := some ms.DISK_CACHE_LIMIT
    memory_max_entries := some 1000000
    enable_litellm_cache := false }

end DspyCache

namespace PydanticCompat

/-- Model of a Python type object as `TypeAdapter.json_schema` (pydantic v1
branch of `dspy/utils/pydantic_compat.py`) observes it: whether it has a
`schema` attribute, the dict its `schema()` returns when it has one, its
`__name__` attribute when present, and its `str()` representation. -/
structure PyType where
  hasSchemaAttr : Bool
  schemaResult : List (String × String)
  pyName : Option String
  strRepr : String
  deriving Repr, DecidableEq

/-- The compatibility `TypeAdapter` for pydantic v1 wraps the type it was
constructed with, as field `type_`. -/
structure TypeAdapter where
  type_ : PyType
  deriving Repr, DecidableEq

/-- Shallow embedding of the pydantic-v1 `TypeAdapter.json_schema`: when the
wrapped type has a `schema` attribute, return `self.type_.schema()`;
otherwise compute `type_name = getattr(self.type_, "__name__", str(self.type_))`
and map it through the built-in fallback table, defaulting to
`\x7b"type": "string"\x7d`. Dicts are modelled as association lists. -/
def TypeAdapter.json_schema (self : TypeAdapter) : List (String × String) :=
  if self.type_.hasSchemaAttr then
    self.type_.schemaResult
  else
    let type_name := self.type_.pyName.getD self.type_.strRepr
    if type_name = "str" then [("type", "string")]
    else if type_name = "int" then [("type", "integer")]
    else if type_name = "float" then [("type", "number")]
    else if type_name = "bool" then [("type", "boolean")]
    else if type_name = "list" then [("type", "array")]
    else if type_name = "dict" then [("type", "object")]
    else [("type", "string")]

/-- The type-name-to-JSON-schema-type mapping as the claim states it,
written from the spec words for comparison with the code embedding:
str, int, float, bool, list and dict map to string, integer, number,
boolean, array and object; every other type maps to string. -/
def claimedFallbackType (type_name : String) : String :=
  if type_name = "str" then "string"
  else if type_name = "int" then "integer"
  else if type_name = "float" then "number"
  else if type_name = "bool" then "boolean"
  else if type_name = "list" then "array"
  else if type_name = "dict" then "object"
  else "string"

end PydanticCompat

namespace DspyCache

/-- C1: calling `configure_cache` with both `enable_disk_cache` true and
`enable_litellm_cache` true raises the configuration-conflict `ValueError`,
for every combination of the other options and of the environment; when at
most one of the two is true, no configuration-conflict error is raised. -/
theorem configure_cache_conflict_iff
    (ms : ModuleState) (st : GlobalState) (edc emc : Option Bool)
    (dir : Option String) (limit maxE : Option Int) (elc fails : Bool) :
    (configure_cache ms st edc emc dir limit maxE elc fails).1
        = some ConfigError.valueError
      ↔ (edc = some true ∧ elc = true) := by
  cases edc with
  | none => simp [configure_cache, truthy]
  | some b =>
    cases b <;> cases elc <;> simp [configure_cache, truthy]

/-- C2: when `configure_cache` raises the configuration-conflict error, the
global state — the process-wide dspy cache, `litellm.cache` and even the
warning log — is exactly what it was before the call: the conflict check
runs before every assignment. -/
theorem configure_cache_error_leaves_state_unchanged
    (ms : ModuleState) (st : GlobalState) (edc emc : Option Bool)
    (dir : Option String) (limit maxE : Option Int) (elc fails : Bool)
    (e : ConfigError)
    (h : (configure_cache ms st edc emc dir limit maxE elc fails).1 = some e) :
    (configure_cache ms st edc emc dir limit maxE elc fails).2 = st := by
  by_cases hg : truthy edc = true ∧ elc = true
  · simp [configure_cache, hg]
  · simp [configure_cache, hg] at h

/-- Witness for C2 at a concrete conflicting call. -/
theorem configure_cache_error_leaves_state_unchanged_witness :
    (configure_cache ⟨"/home/u/.dspy_cache", 30000000000⟩
        ⟨none, Cache.construct (some true) (some true) none none none, []⟩
        (some true) (some true) none none none true false).2
      = ⟨none, Cache.construct (some true) (some true) none none none, []⟩ :=
  configure_cache_error_leaves_state_unchanged
    ⟨"/home/u/.dspy_cache", 30000000000⟩
    ⟨none, Cache.construct (some true) (some true) none none none, []⟩
    (some true) (some true) none none none true false
    ConfigError.valueError (by decide)

/-- C3: if enabling the LiteLLM cache raises during its construction, the
call logs a warning, sets `litellm.cache` to `None`, and completes with no
error: the in-process dspy `Cache` is still constructed from the remaining
options. (Requires the conflict guard to pass, i.e. `enable_disk_cache`
falsy, since `enable_litellm_cache` is true.) -/
theorem configure_cache_litellm_failure_degrades_gracefully
    (ms : ModuleState) (st : GlobalState) (edc emc : Option Bool)
    (dir : Option String) (limit maxE : Option Int)
    (hedc : truthy edc = false) :
    (configure_cache ms st edc emc dir limit maxE true true).1 = none
    ∧ (configure_cache ms st edc emc dir limit maxE true true).2.litellmCache = none
    ∧ (configure_cache ms st edc emc dir limit maxE true true).2.warnings
        = st.warnings ++ ["Failed to initialize LiteLLM cache"]
    ∧ (configure_cache ms st edc emc dir limit maxE true true).2.dspyCache
        = Cache.construct edc emc dir limit maxE := by
  simp [configure_cache, hedc]

/-- Witness for C3 at a concrete call with `enable_disk_cache=False`. -/
theorem configure_cache_litellm_failure_degrades_gracefully_witness :
    truthy (some false) = false
    ∧ (configure_cache ⟨"/home/u/.dspy_cache", 30000000000⟩
          ⟨none, Cache.construct (some true) (some true) none none none, []⟩
          (some false) (some true) (some "/tmp/c") (some 100) (some 10) true true).1 = none
    ∧ (configure_cache ⟨"/home/u/.dspy_cache", 30000000000⟩
          ⟨none, Cache.construct (some true) (some true) none none none, []⟩
          (some false) (some true) (some "/tmp/c") (some 100) (some 10) true true).2.litellmCache = none :=
  ⟨by decide,
   (configure_cache_litellm_failure_degrades_gracefully
      ⟨"/home/u/.dspy_cache", 30000000000⟩
      ⟨none, Cache.construct (some true) (some true) none none none, []⟩
      (some false) (some true) (some "/tmp/c") (some 100) (some 10) (by decide)).1,
   ((configure_cache_litellm_failure_degrades_gracefully
      ⟨"/home/u/.dspy_cache", 30000000000⟩
      ⟨none, Cache.construct (some true) (some true) none none none, []⟩
      (some false) (some true) (some "/tmp/c") (some 100) (some 10) (by decide)).2).1⟩

/-- C5: every successful `configure_cache` call installs as the process-wide
dspy cache a brand-new `Cache` built from the supplied options, replacing
whatever instance was installed before, and the fresh instance holds no
entries (no migration). -/
theorem configure_cache_installs_fresh_cache
    (ms : ModuleState) (st : GlobalState) (edc emc : Option Bool)
    (dir : Option String) (limit maxE : Option Int) (elc fails : Bool)
    (h : (configure_cache ms st edc emc dir limit maxE elc fails).1 = none) :
    (configure_cache ms st edc emc dir limit maxE elc fails).2.dspyCache
        = Cache.construct edc emc dir limit maxE
    ∧ (configure_cache ms st edc emc dir limit maxE elc fails).2.dspyCache.entries = [] := by
  by_cases hg : truthy edc = true ∧ elc = true
  · simp [configure_cache, hg] at h
  · simp [configure_cache, hg, Cache.construct]

/-- Witness for C5 at a concrete successful call replacing a cache that
holds an entry: the new instance drops it. -/
theorem configure_cache_installs_fresh_cache_witness :
    (configure_cache ⟨"/home/u/.dspy_cache", 30000000000⟩
        ⟨none, Cache.mk (some true) (some true) none none none [("k", "v")], []⟩
        (some true) (some true) (some "/tmp/c") (some 100) (some 10) false false).2.dspyCache.entries
      = [] :=
  (configure_cache_installs_fresh_cache
    ⟨"/home/u/.dspy_cache", 30000000000⟩
    ⟨none, Cache.mk (some true) (some true) none none none [("k", "v")], []⟩
    (some true) (some true) (some "/tmp/c") (some 100) (some 10) false false
    (by decide)).2

/-- C6: configuring with `enable_litellm_cache=True`, `enable_disk_cache=False`
and `enable_memory_cache=True` succeeds when LiteLLM cache construction
succeeds: no error, `litellm.cache` is set to the LiteLLM disk cache built
from the module constants, and the constructed dspy `Cache` has the disk
tier disabled and the memory tier enabled. -/
theorem configure_cache_litellm_with_memory_tier
    (ms : ModuleState) (st : GlobalState)
    (dir : Option String) (limit maxE : Option Int) :
    (configure_cache ms st (some false) (some true) dir limit maxE true false).1 = none
    ∧ (configure_cache ms st (some false) (some true) dir limit maxE true false).2.litellmCache
        = some (LitellmCache.mk ms.DISK_CACHE_DIR "disk" ms.DISK_CACHE_LIMIT)
    ∧ (configure_cache ms st (some false) (some true) dir limit maxE true false).2.dspyCache.enable_disk_cache
        = some false
    ∧ (configure_cache ms st (some false) (some true) dir limit maxE true false).2.dspyCache.enable_memory_cache
        = some true := by
  simp [configure_cache, truthy, Cache.construct]

/-- C9: the conflict guard uses Python truthiness, so
`enable_disk_cache=None` together with `enable_litellm_cache=True` raises no
error even though `enable_disk_cache` is not the value `False`, and the
`None` is passed through unchanged to the `Cache` constructor. -/
theorem configure_cache_none_disk_flag_is_falsy
    (ms : ModuleState) (st : GlobalState) (emc : Option Bool)
    (dir : Option String) (limit maxE : Option Int) (fails : Bool) :
    (configure_cache ms st none emc dir limit maxE true fails).1 = none
    ∧ (configure_cache ms st none emc dir limit maxE true fails).2.dspyCache.enable_disk_cache
        = none := by
  cases fails <;> simp [configure_cache, truthy, Cache.construct]

/-- C4: in an environment that sets neither override variable, the defaults
of `configure_cache` are exactly: `enable_disk_cache=True`,
`enable_memory_cache=True`, `disk_cache_dir` the user directory
`~/.dspy_cache`, `disk_size_limit_bytes=30000000000`,
`memory_max_entries=1000000`, `enable_litellm_cache=False`. -/
theorem configure_cache_defaults_exact
    (home : String) (env : String → Option String) (m : ImportedModule)
    (hdir : env "DSPY_CACHEDIR" = none) (hlim : env "DSPY_CACHE_LIMIT" = none)
    (him : moduleImport home env = some m) :
    configureCacheDefaults m.consts env
      = ConfigureCacheArgs.mk (some true) (some true)
          (some (home ++ "/.dspy_cache")) (some 30000000000) (some 1000000) false := by
  simp [moduleImport, DISK_CACHE_LIMIT_of, hlim] at him
  subst him
  simp [configureCacheDefaults, DISK_CACHE_DIR_of, hdir, defaultCacheDir]

/-- Witness for C4 at the empty environment. -/
theorem configure_cache_defaults_exact_witness :
    configureCacheDefaults
        (ImportedModule.mk (ModuleState.mk "/home/u/.dspy_cache" 30000000000)
          (GlobalState.mk none
            (Cache.construct (some true) (some true) (some "/home/u/.dspy_cache")
              (some 30000000000) (some 1000000)) [])).consts
        (fun _ => none)
      = ConfigureCacheArgs.mk (some true) (some true)
          (some ("/home/u" ++ "/.dspy_cache")) (some 30000000000) (some 1000000) false :=
  configure_cache_defaults_exact "/home/u" (fun _ => none) _ rfl rfl rfl

/-- C7: the environment overrides `DSPY_CACHEDIR` and `DSPY_CACHE_LIMIT`
are read at module import into `DISK_CACHE_DIR` and `DISK_CACHE_LIMIT`,
those constants are the defaults of `configure_cache`'s `disk_cache_dir`
and `disk_size_limit_bytes`, and the environment as it stands at call time
is never consulted: the defaults are the same for every later
environment. -/
theorem env_overrides_read_once_at_import
    (home : String) (env envLater : String → Option String) (m : ImportedModule)
    (him : moduleImport home env = some m) :
    m.consts.DISK_CACHE_DIR = DISK_CACHE_DIR_of home env
    ∧ some m.consts.DISK_CACHE_LIMIT = DISK_CACHE_LIMIT_of env
    ∧ (configureCacheDefaults m.consts envLater).disk_cache_dir
        = some m.consts.DISK_CACHE_DIR
    ∧ (configureCacheDefaults m.consts envLater).disk_size_limit_bytes
        = some m.consts.DISK_CACHE_LIMIT
    ∧ configureCacheDefaults m.consts envLater = configureCacheDefaults m.consts env := by
  cases hl : DISK_CACHE_LIMIT_of env with
  | none => simp [moduleImport, hl] at him
  | some lim =>
    simp [moduleImport, hl] at him
    subst him
    simp [configureCacheDefaults]

/-- Witness for C7: an environment that sets both overrides at import, then
is changed afterwards; the defaults still reflect the import-time values. -/
theorem env_overrides_read_once_at_import_witness :
    (configureCacheDefaults
        (ImportedModule.mk (ModuleState.mk "/custom" 30000000000) (GlobalState.mk none
          (Cache.construct (some true) (some true) (some "/custom") (some 30000000000)
            (some 1000000)) [])).consts
        (fun _ => some "/changed")).disk_cache_dir = some "/custom" :=
  (env_overrides_read_once_at_import "/home/u"
    (fun v => if v = "DSPY_CACHEDIR" then some "/custom" else none)
    (fun _ => some "/changed")
    (ImportedModule.mk (ModuleState.mk "/custom" 30000000000) (GlobalState.mk none
      (Cache.construct (some true) (some true) (some "/custom") (some 30000000000)
        (some 1000000)) []))
    (by decide)).2.2.1

/-- C8: importing the module in an environment with neither override set
constructs the single process-wide default cache `DSPY_CACHE` with both
tiers enabled, the `~/.dspy_cache` directory, the 30 GB byte limit and the
1,000,000-entry memory bound, and leaves the external LiteLLM cache
disabled (`litellm.cache` is `None`). -/
theorem module_import_default_cache
    (home : String) (env : String → Option String) (m : ImportedModule)
    (hdir : env "DSPY_CACHEDIR" = none) (hlim : env "DSPY_CACHE_LIMIT" = none)
    (him : moduleImport home env = some m) :
    m.state.litellmCache = none
    ∧ m.state.dspyCache
        = Cache.construct (some true) (some true) (some (home ++ "/.dspy_cache"))
            (some 30000000000) (some 1000000) := by
  simp [moduleImport, DISK_CACHE_LIMIT_of, hlim] at him
  subst him
  simp [DISK_CACHE_DIR_of, hdir, defaultCacheDir]

/-- Witness for C8 at the empty environment. -/
theorem module_import_default_cache_witness :
    (ImportedModule.mk (ModuleState.mk ("/home/u" ++ "/.dspy_cache") 30000000000)
        (GlobalState.mk none
          (Cache.construct (some true) (some true) (some ("/home/u" ++ "/.dspy_cache"))
            (some 30000000000) (some 1000000)) [])).state.litellmCache = none :=
  (module_import_default_cache "/home/u" (fun _ => none) _ rfl rfl rfl).1

end DspyCache

namespace PydanticCompat

/-- C10: under pydantic v1, for every wrapped type with no `schema`
attribute, `TypeAdapter.json_schema` returns (total function) a dict that
is exactly a single `"type"` key whose value follows the claimed mapping:
str, int, float, bool, list, dict map to string, integer, number, boolean,
array, object, and every other type name maps to string. -/
theorem json_schema_fallback_matches_claim
    (t : PyType) (h : t.hasSchemaAttr = false) :
    (TypeAdapter.mk t).json_schema
      = [("type", claimedFallbackType (t.pyName.getD t.strRepr))] := by
  simp only [TypeAdapter.json_schema, h, Bool.false_eq_true, if_false, claimedFallbackType]
  split_ifs <;> rfl

/-- Witness for C10 at the built-in type `int` (which has `__name__` and no
`schema` attribute). -/
theorem json_schema_fallback_matches_claim_witness :
    (TypeAdapter.mk (PyType.mk false [] (some "int") "<class int>")).json_schema
      = [("type", claimedFallbackType "int")] :=
  json_schema_fallback_matches_claim (PyType.mk false [] (some "int") "<class int>") rfl

end PydanticCompat
